import Mathlib

/-!
Shallow embedding of the IT-asset tracker's Record Store and HTTP API layer
(`Agent/queries.js` together with the database behaviour of the SQL it issues,
and the asset routes of `Agent/server.js`).

Modelling conventions:
* JavaScript values flowing through field bags are modelled by `Value`
  (strings, numbers, booleans, `null`, `undefined`).
* The PostgreSQL `assets` table is a list of `AssetRow`; row ids (UUIDs in the
  source) are modelled as naturals, and the database-side parse of an id string
  (PostgreSQL's uuid input syntax check, which happens inside the SQL engine,
  not in the handlers) is modelled by `parseId`, accepting digit strings.
* Timestamps (`CURRENT_TIMESTAMP`, `new Date()`) are naturals supplied as a
  `now` argument.
* Errors raised by the driver are the constructors of `DbError`; their
  free-text messages (`error.message`, which is all the HTTP layer forwards)
  are produced by `DbError.message`.
* Parameter serialisation follows `node-postgres`: strings verbatim, numbers
  and booleans via `toString`, `null`/`undefined` as SQL `NULL`.  Casts of
  text parameters into `DECIMAL`/`BOOLEAN` columns are modelled strictly
  (only numeric values for `cost`, boolean values for `discovered`); the
  claims checked here never exercise string-to-number coercion corners.
-/

inductive Value where
  | str (s : String)
  | num (n : Int)
  | bool (b : Bool)
  | null
  | undef
deriving DecidableEq, Repr

/-- JavaScript truthiness, as used by the `x || default` idiom in
`createAsset`: `undefined`, `null`, `""`, `0` and `false` are falsy. -/
def truthy : Value → Bool
  | .str s => !(s == "")
  | .num n => !(n == 0)
  | .bool b => b
  | .null => false
  | .undef => false

/-- The filter applied by every update function:
`value !== undefined && value !== null`. -/
def isPresent : Value → Bool
  | .null => false
  | .undef => false
  | _ => true

/-- One row of the `assets` table.  `asset_tag` and `asset_type` are
`NOT NULL`; the remaining text columns are nullable.  `status`, `cost` and
`discovered` are non-null for every row this API can produce (the insert
always supplies them via `||` defaults). -/
structure AssetRow where
  id : Nat
  asset_tag : String
  asset_type : String
  manufacturer : Option String
  model : Option String
  serial_number : Option String
  assigned_user_name : Option String
  status : String
  cost : Int
  discovered : Bool
  created_at : Nat
  updated_at : Nat
deriving DecidableEq, Repr

/-- The nine properties `createAsset` destructures from its `assetData`
argument; a key missing from the caller's object is `undefined`. -/
structure AssetInput where
  asset_tag : Value
  asset_type : Value
  manufacturer : Value
  model : Value
  serial_number : Value
  assigned_user_name : Value
  status : Value
  cost : Value
  discovered : Value
deriving DecidableEq, Repr

/-- Errors surfaced by the driver to the store functions, which rethrow them
to the HTTP layer. -/
inductive DbError where
  | noFields
  | uniqueViolation (constraintName : String)
  | notNullViolation (column : String)
  | undefinedColumn (name : String)
  | multipleAssignment (column : String)
  | typeMismatch (column : String)
  | invalidUuid (text : String)
deriving DecidableEq, Repr

/-- The free-text message of each error (`error.message` in the source is the
only error structure the HTTP layer forwards). -/
def DbError.message : DbError → String
  | .noFields => "No fields to update"
  | .uniqueViolation c => "duplicate key value violates unique constraint \"" ++ c ++ "\""
  | .notNullViolation col => "null value in column \"" ++ col ++ "\" violates not-null constraint"
  | .undefinedColumn k => "column \"" ++ k ++ "\" of relation \"assets\" does not exist"
  | .multipleAssignment k => "multiple assignments to same column \"" ++ k ++ "\""
  | .typeMismatch col => "invalid input syntax for column \"" ++ col ++ "\""
  | .invalidUuid t => "invalid input syntax for type uuid: \"" ++ t ++ "\""

/-- Serialisation of a JS value into a SQL text parameter (`node-postgres`):
`none` is SQL `NULL`. -/
def asText : Value → Option String
  | .str s => some s
  | .num n => some (toString n)
  | .bool b => some (toString b)
  | .null => none
  | .undef => none

/-- Cast of a JS value into a `DECIMAL` column; the outer `none` is a cast
failure (see the module comment on the strictness simplification). -/
def asNumeric : Value → Option (Option Int)
  | .num n => some (some n)
  | .null => some none
  | .undef => some none
  | _ => none

/-- Cast of a JS value into a `BOOLEAN` column; the outer `none` is a cast
failure. -/
def asBoolean : Value → Option (Option Bool)
  | .bool b => some (some b)
  | .null => some none
  | .undef => some none
  | _ => none

/-- The database-side parse of an id string (the uuid input syntax check,
performed by the SQL engine on the raw `:id` path parameter the handlers pass
through unvalidated).  Modelled as: digit strings are well-formed ids. -/
def parseId (s : String) : Option Nat :=
  if s.toList.length != 0 && s.toList.all Char.isDigit then
    some (s.toList.foldl (fun n c => 10 * n + (c.toNat - 48)) 0)
  else none

/-- Largest id present in the store (0 when empty). -/
def maxId (store : List AssetRow) : Nat :=
  store.foldr (fun r m => max r.id m) 0

/-- `gen_random_uuid()`: a fresh id, modelled as one more than any id in
the table. -/
def freshId (store : List AssetRow) : Nat := maxId store + 1

/-- `createAsset`: the `INSERT` with the source's `||` defaults
(`status || 'In Use'`, `cost || 0`, `discovered || false`), the table's
`NOT NULL` constraints on `asset_tag`/`asset_type`, and its `UNIQUE`
constraints on `asset_tag` and `serial_number` (SQL `UNIQUE` admits multiple
`NULL`s). -/
def createAsset (now : Nat) (a : AssetInput) (store : List AssetRow) :
    Except DbError (AssetRow × List AssetRow) :=
  let pStatus := if truthy a.status then a.status else Value.str "In Use"
  let pCost := if truthy a.cost then a.cost else Value.num 0
  let pDiscovered := if truthy a.discovered then a.discovered else Value.bool false
  match asText a.asset_tag with
  | none => .error (.notNullViolation "asset_tag")
  | some tag =>
  match asText a.asset_type with
  | none => .error (.notNullViolation "asset_type")
  | some ty =>
  match asText pStatus with
  | none => .error (.notNullViolation "status")
  | some st =>
  match asNumeric pCost with
  | none => .error (.typeMismatch "cost")
  | some costOpt =>
  match asBoolean pDiscovered with
  | none => .error (.typeMismatch "discovered")
  | some discOpt =>
  if store.any (fun r => r.asset_tag == tag) then
    .error (.uniqueViolation "assets_asset_tag_key")
  else if (asText a.serial_number).isSome &&
      store.any (fun r => r.serial_number == asText a.serial_number) then
    .error (.uniqueViolation "assets_serial_number_key")
  else
    let row : AssetRow :=
      { id := freshId store
        asset_tag := tag
        asset_type := ty
        manufacturer := asText a.manufacturer
        model := asText a.model
        serial_number := asText a.serial_number
        assigned_user_name := asText a.assigned_user_name
        status := st
        cost := costOpt.getD 0
        discovered := discOpt.getD false
        created_at := now
        updated_at := now }
    .ok (row, store ++ [row])

/-- All columns of the `assets` table (the only keys PostgreSQL would accept
in a `SET` clause). -/
def assetTableColumns : List String :=
  ["id", "asset_tag", "asset_type", "manufacturer", "model", "serial_number",
   "assigned_user_name", "status", "cost", "discovered", "created_at", "updated_at"]

/-- The data columns an update is expected to touch (the insertable columns
of `createAsset`). -/
def assetDataColumns : List String :=
  ["asset_tag", "asset_type", "manufacturer", "model", "serial_number",
   "assigned_user_name", "status", "cost", "discovered"]

/-- The `for (const [key, value] of Object.entries(assetData))` loop of
`updateAsset`: every key with a non-null, non-undefined value produces a
`key = $n` fragment verbatim, `n` counting from the given start. -/
def collectFields : List (String × Value) → Nat → List String × List Value
  | [], _ => ([], [])
  | (k, v) :: rest, n =>
    if isPresent v then
      let (fs, vs) := collectFields rest (n + 1)
      ((k ++ " = $" ++ toString n) :: fs, v :: vs)
    else
      collectFields rest n

/-- The entries of the field bag that survive the null/undefined filter. -/
def filteredBag (bag : List (String × Value)) : List (String × Value) :=
  bag.filter (fun kv => isPresent kv.2)

/-- The SQL text `updateAsset` sends to the database for a given field bag:
caller-supplied keys are spliced into the `SET` clause verbatim. -/
def assetUpdateSql (bag : List (String × Value)) : String :=
  let pc := (filteredBag bag).length + 1
  let fields := (collectFields bag 1).1 ++ ["updated_at = $" ++ toString pc]
  "UPDATE assets SET " ++ String.intercalate ", " fields ++
    " WHERE id = $" ++ toString (pc + 1) ++ " RETURNING *"

/-- Whether the value cast required for assigning `v` to column `k`
succeeds (checked by the database when binding parameters, before any row is
matched). -/
def castOk (k : String) (v : Value) : Bool :=
  if k == "id" then
    match v with
    | .str s => (parseId s).isSome
    | _ => false
  else if k == "cost" then
    match asNumeric v with
    | some (some _) => true
    | _ => false
  else if k == "discovered" then
    match asBoolean v with
    | some (some _) => true
    | _ => false
  else if k == "created_at" || k == "updated_at" then
    match v with
    | .num _ => true
    | _ => false
  else
    (asText v).isSome

/-- Assignment of one surviving `SET key = value` pair to a row (the value is
known non-null and cast-checked by the time this runs). -/
def applyField (r : AssetRow) (k : String) (v : Value) : AssetRow :=
  if k == "id" then
    match v with
    | .str s => { r with id := (parseId s).getD r.id }
    | _ => r
  else if k == "asset_tag" then { r with asset_tag := (asText v).getD r.asset_tag }
  else if k == "asset_type" then { r with asset_type := (asText v).getD r.asset_type }
  else if k == "manufacturer" then { r with manufacturer := asText v }
  else if k == "model" then { r with model := asText v }
  else if k == "serial_number" then { r with serial_number := asText v }
  else if k == "assigned_user_name" then { r with assigned_user_name := asText v }
  else if k == "status" then { r with status := (asText v).getD r.status }
  else if k == "cost" then
    match asNumeric v with
    | some (some n) => { r with cost := n }
    | _ => r
  else if k == "discovered" then
    match asBoolean v with
    | some (some b) => { r with discovered := b }
    | _ => r
  else if k == "created_at" then
    match v with
    | .num n => { r with created_at := n.toNat }
    | _ => r
  else
    r

/-- `updateAsset`: builds the `SET` clause from the raw field bag, throws
`No fields to update` when nothing survives the filter, and otherwise runs
the generated SQL.  Everything after the empty-bag check models the
database's handling of that SQL: an unknown key (spliced verbatim) fails as
an undefined column, a second assignment to `updated_at` (the code always
appends its own) fails, parameter casts and the uuid parse of the raw id
fail before any row is matched, and an unmatched id yields no row
(`result.rows[0]` is `undefined`). -/
def updateAsset (now : Nat) (rawId : String) (bag : List (String × Value))
    (store : List AssetRow) : Except DbError (Option AssetRow) × List AssetRow :=
  let filtered := filteredBag bag
  if filtered.isEmpty then
    (.error .noFields, store)
  else
    match filtered.find? (fun kv => !(assetTableColumns.contains kv.1)) with
    | some kv => (.error (.undefinedColumn kv.1), store)
    | none =>
    if filtered.any (fun kv => kv.1 == "updated_at") then
      (.error (.multipleAssignment "updated_at"), store)
    else if !(filtered.all (fun kv => castOk kv.1 kv.2)) then
      (.error (.typeMismatch "assets"), store)
    else
    match parseId rawId with
    | none => (.error (.invalidUuid rawId), store)
    | some i =>
    match store.find? (fun r => r.id == i) with
    | none => (.ok none, store)
    | some r =>
      let r2 := filtered.foldl (fun acc kv => applyField acc kv.1 kv.2) r
      let r3 := { r2 with updated_at := now }
      if store.any (fun x => !(x.id == i) && (x.asset_tag == r3.asset_tag)) then
        (.error (.uniqueViolation "assets_asset_tag_key"), store)
      else if r3.serial_number.isSome &&
          store.any (fun x => !(x.id == i) && (x.serial_number == r3.serial_number)) then
        (.error (.uniqueViolation "assets_serial_number_key"), store)
      else
        (.ok (some r3), store.map (fun x => if x.id == i then r3 else x))

/-- `getAssetById`: `SELECT * FROM assets WHERE id = $1`, returning
`rows[0]`. -/
def getAssetById (rawId : String) (store : List AssetRow) :
    Except DbError (Option AssetRow) :=
  match parseId rawId with
  | none => .error (.invalidUuid rawId)
  | some i => .ok (store.find? (fun r => r.id == i))

/-- `deleteAsset`: `DELETE FROM assets WHERE id = $1 RETURNING *`, returning
`rows[0]`. -/
def deleteAsset (rawId : String) (store : List AssetRow) :
    Except DbError (Option AssetRow) × List AssetRow :=
  match parseId rawId with
  | none => (.error (.invalidUuid rawId), store)
  | some i =>
    match store.find? (fun r => r.id == i) with
    | none => (.ok none, store)
    | some r => (.ok (some r), store.filter (fun x => !(x.id == i)))

/-- Fuel-driven core of SQL `ILIKE` pattern matching over character lists:
`%` matches any sequence (tried as every suffix of the remaining string),
`_` matches any single character, the default escape character `\\` makes
the following pattern character match literally (still case-insensitively),
and every other character matches case-insensitively.  A pattern ending in a
lone escape character is an error in PostgreSQL; it is modelled as matching
nothing (the `%query%` patterns built by the search functions never end in
one).  Every step consumes at least one pattern character, so pattern length
plus one is always enough fuel. -/
def likeMatchF : Nat → List Char → List Char → Bool
  | 0, _, _ => false
  | _ + 1, [], s => s.isEmpty
  | fuel + 1, p :: ps, s =>
    if p == '\\' then
      match ps, s with
      | [], _ => false
      | _ :: _, [] => false
      | e :: ps2, c :: s2 => e.toLower == c.toLower && likeMatchF fuel ps2 s2
    else if p == '%' then s.tails.any (fun t => likeMatchF fuel ps t)
    else
      match s with
      | [] => false
      | c :: s2 =>
        if p == '_' then likeMatchF fuel ps s2
        else p.toLower == c.toLower && likeMatchF fuel ps s2

/-- SQL `ILIKE` pattern matching: `likeMatchF` with sufficient fuel. -/
def likeMatch (ps s : List Char) : Bool := likeMatchF (ps.length + 1) ps s

/-- `s ILIKE pat` for a non-null column value. -/
def ilike (s : String) (pat : String) : Bool := likeMatch pat.toList s.toList

/-- `s ILIKE pat` for a nullable column: `NULL ILIKE pat` is not true. -/
def ilikeOpt (s : Option String) (pat : String) : Bool :=
  match s with
  | none => false
  | some s => ilike s pat

/-- The `searchTerm` of `searchAssets`: `%${query}%`. -/
def searchPattern (q : String) : String := "%" ++ q ++ "%"

/-- The `WHERE` clause of `searchAssets`: any of the four text columns
matches the pattern. -/
def rowMatches (q : String) (r : AssetRow) : Bool :=
  ilike r.asset_tag (searchPattern q) || ilikeOpt r.manufacturer (searchPattern q) ||
    ilikeOpt r.model (searchPattern q) || ilikeOpt r.assigned_user_name (searchPattern q)

/-- `ORDER BY created_at DESC`. -/
def createdDesc (a b : AssetRow) : Bool := decide (b.created_at ≤ a.created_at)

/-- The `ORDER BY created_at DESC` of the list/search queries. -/
def sortByCreatedDesc (store : List AssetRow) : List AssetRow :=
  store.mergeSort createdDesc

/-- `searchAssets`: rows whose tag, manufacturer, model or assigned user
matches `%query%` case-insensitively, newest first. -/
def searchAssets (q : String) (store : List AssetRow) : List AssetRow :=
  (sortByCreatedDesc store).filter (rowMatches q)

/-- The spec's matching notion: the query occurs in the column value as a
case-insensitive substring. -/
abbrev SubstrCI (q s : String) : Prop :=
  (q.toList.map Char.toLower) <:+: (s.toList.map Char.toLower)

/-- The spec's matching notion on a nullable column. -/
def SubstrCIOpt (q : String) : Option String → Prop
  | none => False
  | some s => SubstrCI q s

instance (q : String) (s : Option String) : Decidable (SubstrCIOpt q s) :=
  match s with
  | none => isFalse (fun h => h)
  | some s => inferInstanceAs (Decidable (SubstrCI q s))

/-- Queries in which no character is a SQL `LIKE` wildcard or the default
escape character. -/
def wildcardFree (q : String) : Prop :=
  ∀ c ∈ q.toList, c ≠ '%' ∧ c ≠ '_' ∧ c ≠ '\\'

instance (q : String) : Decidable (wildcardFree q) :=
  inferInstanceAs (Decidable (∀ c ∈ q.toList, c ≠ '%' ∧ c ≠ '_' ∧ c ≠ '\\'))

/-- The database catalog: which tables and which indexes exist. -/
structure Catalog where
  tables : List String
  indexes : List String
deriving DecidableEq, Repr

/-- `CREATE TABLE IF NOT EXISTS`. -/
def createTableIfNotExists (t : String) (c : Catalog) : Catalog :=
  if t ∈ c.tables then c else { c with tables := c.tables ++ [t] }

/-- `CREATE INDEX IF NOT EXISTS`. -/
def createIndexIfNotExists (i : String) (c : Catalog) : Catalog :=
  if i ∈ c.indexes then c else { c with indexes := c.indexes ++ [i] }

/-- The four tables `initDatabase` creates, in creation order. -/
def initTables : List String := ["assets", "licenses", "users", "contracts"]

/-- The eight indexes `initDatabase` creates, in creation order. -/
def initIndexes : List String :=
  ["idx_asset_tag", "idx_status", "idx_license_name", "idx_license_status",
   "idx_user_name", "idx_user_status", "idx_contract_name", "idx_contract_status"]

/-- The DDL part of `initDatabase`: all `CREATE TABLE IF NOT EXISTS` then all
`CREATE INDEX IF NOT EXISTS` statements, in source order. -/
def createSteps (c : Catalog) : Catalog :=
  initIndexes.foldl (fun c i => createIndexIfNotExists i c)
    (initTables.foldl (fun c t => createTableIfNotExists t c) c)

/-- The interpolated message of the verification failure thrown by
`initDatabase`. -/
def verifyMessage (a l u k : Bool) : String :=
  "Table verification failed: assets=" ++ toString a ++ ", licenses=" ++ toString l ++
    ", users=" ++ toString u ++ ", contracts=" ++ toString k

/-- The catalog query at the end of `initDatabase`: four `EXISTS` probes of
`information_schema.tables`, and a thrown error unless all four are true. -/
def verifyTables (c : Catalog) : Except String Unit :=
  let a := decide ("assets" ∈ c.tables)
  let l := decide ("licenses" ∈ c.tables)
  let u := decide ("users" ∈ c.tables)
  let k := decide ("contracts" ∈ c.tables)
  if a && l && u && k then .ok () else .error (verifyMessage a l u k)

/-- `initDatabase`: run the idempotent DDL, then verify the catalog. -/
def initDatabase (c : Catalog) : Except String Catalog :=
  let c2 := createSteps c
  match verifyTables c2 with
  | .ok _ => .ok c2
  | .error e => .error e

/-- JSON response bodies of the asset routes, kept structured rather than
serialised. -/
inductive ResBody where
  | row (r : AssetRow)
  | rows (l : List AssetRow)
  | err (msg : String)
  | deleted (msg : String) (r : AssetRow)
deriving DecidableEq, Repr

/-- An HTTP response: status code and JSON body. -/
structure HttpResponse where
  status : Nat
  body : ResBody
deriving DecidableEq, Repr

/-- `GET /api/assets/:id`: 404 with an error body when `rows[0]` is
undefined, 200 with the row on success, 500 with the error message when the
store call throws (the handler performs no validation of the raw
parameter). -/
def getAssetHandler (rawId : String) (store : List AssetRow) : HttpResponse :=
  match getAssetById rawId store with
  | .error e => ⟨500, .err e.message⟩
  | .ok none => ⟨404, .err "Asset not found"⟩
  | .ok (some r) => ⟨200, .row r⟩

/-- `POST /api/assets`: 201 with the created row, 400 with the error message
on any store error. -/
def postAssetHandler (now : Nat) (a : AssetInput) (store : List AssetRow) :
    HttpResponse × List AssetRow :=
  match createAsset now a store with
  | .error e => (⟨400, .err e.message⟩, store)
  | .ok (r, store2) => (⟨201, .row r⟩, store2)

/-- `PUT /api/assets/:id`: 404 with an error body on an absent row, 200 with
the updated row, 400 with the error message on any store error. -/
def putAssetHandler (now : Nat) (rawId : String) (bag : List (String × Value))
    (store : List AssetRow) : HttpResponse × List AssetRow :=
  match updateAsset now rawId bag store with
  | (.error e, store2) => (⟨400, .err e.message⟩, store2)
  | (.ok none, store2) => (⟨404, .err "Asset not found"⟩, store2)
  | (.ok (some r), store2) => (⟨200, .row r⟩, store2)

/-- `DELETE /api/assets/:id`: 404 with an error body on an absent row, 200
with a message and the deleted row, 500 on any store error. -/
def deleteAssetHandler (rawId : String) (store : List AssetRow) :
    HttpResponse × List AssetRow :=
  match deleteAsset rawId store with
  | (.error e, store2) => (⟨500, .err e.message⟩, store2)
  | (.ok none, store2) => (⟨404, .err "Asset not found"⟩, store2)
  | (.ok (some r), store2) => (⟨200, .deleted "Asset deleted" r⟩, store2)

/-- A field bag whose single key is not a column name but a SQL fragment. -/
def injectionBag : List (String × Value) :=
  [("status = NULL WHERE 1=1; --", Value.str "x")]

/-- Claim C1 (code bug): the update functions are claimed to reject unknown
keys and let only an enumerated allow-list of columns into the `SET` clause;
in the code the caller-supplied key is spliced into the SQL verbatim, so a
key that is not a declared column — here, an entire SQL fragment — appears in
the query sent to storage. -/
theorem c1_set_clause_injection :
    assetUpdateSql injectionBag =
      "UPDATE assets SET status = NULL WHERE 1=1; -- = $1, updated_at = $2 WHERE id = $3 RETURNING *" ∧
      "status = NULL WHERE 1=1; --" ∉ assetTableColumns := by
  constructor
  · rfl
  · decide

/-- Claim C2: an update whose field bag is empty after filtering out
null/undefined values fails with the `No fields to update` validation error
before touching storage, and the store — every row and timestamp — is
unchanged. -/
theorem c2_empty_bag_is_rejected (now : Nat) (rawId : String)
    (bag : List (String × Value)) (store : List AssetRow)
    (h : filteredBag bag = []) :
    updateAsset now rawId bag store = (.error .noFields, store) ∧
      DbError.noFields.message = "No fields to update" := by
  refine ⟨?_, rfl⟩
  unfold updateAsset
  rw [h]
  rfl

/-- Witness for C2 at the bag whose only value is null. -/
theorem c2_witness :
    updateAsset 0 "1" [("status", Value.null)] [] = (.error .noFields, []) :=
  (c2_empty_bag_is_rejected 0 "1" [("status", Value.null)] [] (by decide)).1

/-- Claim C7: deleting a stored id returns the deleted row and removes every
row with that id; a second delete with the same id returns an absent result
(`rows[0]` undefined), not an error. -/
theorem c7_delete_twice (rawId : String) (i : Nat) (store : List AssetRow)
    (r : AssetRow) (hid : parseId rawId = some i)
    (hfind : store.find? (fun x => x.id == i) = some r) :
    deleteAsset rawId store =
      (.ok (some r), store.filter (fun x => !(x.id == i))) ∧
    deleteAsset rawId (store.filter (fun x => !(x.id == i))) =
      (.ok none, store.filter (fun x => !(x.id == i))) := by
  have hnone : (store.filter (fun x => !(x.id == i))).find? (fun x => x.id == i) = none := by
    rw [List.find?_eq_none]
    intro x hx
    have h2 := (List.mem_filter.mp hx).2
    simpa using h2
  constructor
  · simp only [deleteAsset, hid, hfind]
  · simp only [deleteAsset, hid, hnone]

/-- A concrete stored row used by the C7 witness. -/
def rowDel : AssetRow :=
  ⟨4, "A-4", "hardware", none, none, none, none, "In Use", 0, false, 2, 2⟩

/-- Witness for C7 on a one-row store. -/
theorem c7_witness :
    deleteAsset "4" [rowDel] = (.ok (some rowDel), [rowDel].filter (fun x => !(x.id == 4))) ∧
    deleteAsset "4" ([rowDel].filter (fun x => !(x.id == 4))) =
      (.ok none, [rowDel].filter (fun x => !(x.id == 4))) :=
  c7_delete_twice "4" 4 [rowDel] rowDel (by decide) (by decide)

/-- Claim C9 counterexample: the GET handler performs no validation of the
`:id` path parameter; the malformed id `not-a-uuid` reaches the store, and
the resulting store-level error is returned as HTTP 500 — a server error
status, not a client error. -/
theorem c9_counterexample :
    getAssetHandler "not-a-uuid" [] =
      ⟨500, .err (DbError.invalidUuid "not-a-uuid").message⟩ := rfl

/-- Claim C9 amended: the handlers pass `:id` to the store unvalidated.  A
well-formed id with no stored row yields 404 with an error body; a found row
yields 200; creation yields 201; a malformed id surfaces as a store-level
error which the GET handler returns as a 500 response carrying the error
message (caught, with an error body — not an unhandled failure). -/
theorem c9_handler_behaviour (rawId : String) (store : List AssetRow) :
    (parseId rawId = none →
      getAssetHandler rawId store = ⟨500, .err (DbError.invalidUuid rawId).message⟩) ∧
    (∀ i, parseId rawId = some i → store.find? (fun r => r.id == i) = none →
      getAssetHandler rawId store = ⟨404, .err "Asset not found"⟩) ∧
    (∀ i r, parseId rawId = some i → store.find? (fun r => r.id == i) = some r →
      getAssetHandler rawId store = ⟨200, .row r⟩) ∧
    (∀ now a r store2, createAsset now a store = .ok (r, store2) →
      postAssetHandler now a store = (⟨201, .row r⟩, store2)) := by
  refine ⟨?_, ?_, ?_, ?_⟩
  · intro h; simp only [getAssetHandler, getAssetById, h]
  · intro i h hn; simp only [getAssetHandler, getAssetById, h, hn]
  · intro i r h hs; simp only [getAssetHandler, getAssetById, h, hs]
  · intro now a r store2 h; simp only [postAssetHandler, h]

/-- Witness for C9 at a well-formed id that was never created. -/
theorem c9_witness :
    getAssetHandler "99" [] = ⟨404, .err "Asset not found"⟩ :=
  (c9_handler_behaviour "99" []).2.1 99 (by decide) rfl

/-- Every id in the store is at most `maxId`. -/
theorem id_le_maxId (store : List AssetRow) (x : AssetRow) (hx : x ∈ store) :
    x.id ≤ maxId store := by
  induction store with
  | nil => cases hx
  | cons h t ih =>
    rw [List.mem_cons] at hx
    rcases hx with rfl | hx
    · simp [maxId]
    · calc x.id ≤ maxId t := ih hx
        _ ≤ maxId (h :: t) := by simp [maxId]

/-- The generated id of an insert differs from every id already stored. -/
theorem freshId_not_mem (store : List AssetRow) (x : AssetRow) (hx : x ∈ store) :
    x.id ≠ freshId store := by
  have h := id_le_maxId store x hx
  unfold freshId
  omega

/-- Characterisation of a successful `createAsset`: each stored field comes
from the corresponding `INSERT` parameter (with the `||` defaults), the id is
fresh, both timestamps are `now`, and the row is appended to the store. -/
theorem createAsset_ok_spec (now : Nat) (a : AssetInput) (store : List AssetRow)
    (r : AssetRow) (store2 : List AssetRow)
    (hok : createAsset now a store = .ok (r, store2)) :
    (∃ st, asText (if truthy a.status then a.status else Value.str "In Use") = some st ∧
      r.status = st) ∧
    (∃ co, asNumeric (if truthy a.cost then a.cost else Value.num 0) = some co ∧
      r.cost = co.getD 0) ∧
    (∃ di, asBoolean (if truthy a.discovered then a.discovered else Value.bool false) = some di ∧
      r.discovered = di.getD false) ∧
    r.created_at = now ∧ r.updated_at = now ∧ r.id = freshId store ∧
      store2 = store ++ [r] := by
  simp only [createAsset] at hok
  cases htag : asText a.asset_tag with
  | none => rw [htag] at hok; simp at hok
  | some tag =>
  rw [htag] at hok
  cases hty : asText a.asset_type with
  | none => rw [hty] at hok; simp at hok
  | some ty =>
  rw [hty] at hok
  cases hst : asText (if truthy a.status then a.status else Value.str "In Use") with
  | none => rw [hst] at hok; simp at hok
  | some st =>
  rw [hst] at hok
  cases hco : asNumeric (if truthy a.cost then a.cost else Value.num 0) with
  | none => rw [hco] at hok; simp at hok
  | some co =>
  rw [hco] at hok
  cases hdi : asBoolean (if truthy a.discovered then a.discovered else Value.bool false) with
  | none => rw [hdi] at hok; simp at hok
  | some di =>
  rw [hdi] at hok
  dsimp only at hok
  cases hdup : store.any (fun r => r.asset_tag == tag) with
  | true => rw [hdup] at hok; simp at hok
  | false =>
  rw [hdup] at hok
  cases hser : (asText a.serial_number).isSome &&
      store.any (fun r => r.serial_number == asText a.serial_number) with
  | true => rw [hser] at hok; simp at hok
  | false =>
  rw [hser] at hok
  simp only [Bool.false_eq_true, if_false, Except.ok.injEq, Prod.mk.injEq] at hok
  obtain ⟨hr, hs2⟩ := hok
  subst hr
  exact ⟨⟨st, rfl, rfl⟩, ⟨co, rfl, rfl⟩, ⟨di, rfl, rfl⟩, rfl, rfl, rfl, hs2.symm⟩

/-- Claim C3: a create payload omitting `status`, `cost` and `discovered`
stores the documented defaults — status `In Use`, cost 0, discovered false —
with a freshly generated id and creation/update timestamps both equal to the
insertion time. -/
theorem c3_create_defaults (now : Nat) (a : AssetInput) (store : List AssetRow)
    (r : AssetRow) (store2 : List AssetRow)
    (hs : a.status = Value.undef) (hc : a.cost = Value.undef)
    (hd : a.discovered = Value.undef)
    (hok : createAsset now a store = .ok (r, store2)) :
    r.status = "In Use" ∧ r.cost = 0 ∧ r.discovered = false ∧
      r.created_at = now ∧ r.updated_at = now ∧
      (∀ x ∈ store, x.id ≠ r.id) ∧ store2 = store ++ [r] := by
  obtain ⟨⟨st, hst, hrst⟩, ⟨co, hco, hrco⟩, ⟨di, hdi, hrdi⟩, hca, hua, hid, hs2⟩ :=
    createAsset_ok_spec now a store r store2 hok
  rw [hs] at hst
  rw [hc] at hco
  rw [hd] at hdi
  simp only [truthy, Bool.false_eq_true, if_false, asText, asNumeric, asBoolean,
    Option.some.injEq] at hst hco hdi
  refine ⟨?_, ?_, ?_, hca, hua, ?_, hs2⟩
  · rw [hrst, ← hst]
  · rw [hrco, ← hco]; rfl
  · rw [hrdi, ← hdi]; rfl
  · intro x hx
    rw [hid]
    exact freshId_not_mem store x hx

/-- The C3 witness payload: tag `A-100`, type `hardware`, everything else
omitted. -/
def inputA100 : AssetInput :=
  ⟨Value.str "A-100", Value.str "hardware", Value.undef, Value.undef, Value.undef,
   Value.undef, Value.undef, Value.undef, Value.undef⟩

/-- The row the C3 witness creation stores. -/
def rowA100 : AssetRow :=
  ⟨1, "A-100", "hardware", none, none, none, none, "In Use", 0, false, 7, 7⟩

/-- Witness for C3 at the spec's scenario payload. -/
theorem c3_witness :
    createAsset 7 inputA100 [] = .ok (rowA100, [rowA100]) ∧
      rowA100.status = "In Use" ∧ rowA100.cost = 0 ∧ rowA100.discovered = false ∧
      rowA100.created_at = 7 ∧ rowA100.updated_at = 7 := by
  have hok : createAsset 7 inputA100 [] = .ok (rowA100, [] ++ [rowA100]) := by rfl
  have h := c3_create_defaults 7 inputA100 [] rowA100 ([] ++ [rowA100]) rfl rfl rfl hok
  exact ⟨hok, h.1, h.2.1, h.2.2.1, h.2.2.2.1, h.2.2.2.2.1⟩

/-- Claim C10: `createAsset` cannot distinguish an omitted defaultable field
from a supplied falsy one — whenever `status`, `cost` or `discovered` is
present but falsy, the `||` defaults overwrite the supplied value. -/
theorem c10_falsy_inputs_get_defaults (now : Nat) (a : AssetInput)
    (store : List AssetRow) (r : AssetRow) (store2 : List AssetRow)
    (hok : createAsset now a store = .ok (r, store2)) :
    (isPresent a.status = true → truthy a.status = false → r.status = "In Use") ∧
    (isPresent a.cost = true → truthy a.cost = false → r.cost = 0) ∧
    (isPresent a.discovered = true → truthy a.discovered = false → r.discovered = false) := by
  obtain ⟨⟨st, hst, hrst⟩, ⟨co, hco, hrco⟩, ⟨di, hdi, hrdi⟩, _, _, _, _⟩ :=
    createAsset_ok_spec now a store r store2 hok
  refine ⟨?_, ?_, ?_⟩
  · intro _ htr
    rw [htr] at hst
    simp only [Bool.false_eq_true, if_false, asText, Option.some.injEq] at hst
    rw [hrst, ← hst]
  · intro _ htr
    rw [htr] at hco
    simp only [Bool.false_eq_true, if_false, asNumeric, Option.some.injEq] at hco
    rw [hrco, ← hco]; rfl
  · intro _ htr
    rw [htr] at hdi
    simp only [Bool.false_eq_true, if_false, asBoolean, Option.some.injEq] at hdi
    rw [hrdi, ← hdi]; rfl

/-- The C10 witness payload: `status` is the empty string, `cost` is 0 and
`discovered` is false — all present, all falsy. -/
def inputFalsy : AssetInput :=
  ⟨Value.str "A-200", Value.str "hardware", Value.undef, Value.undef, Value.undef,
   Value.undef, Value.str "", Value.num 0, Value.bool false⟩

/-- The row the C10 witness creation stores. -/
def rowA200 : AssetRow :=
  ⟨1, "A-200", "hardware", none, none, none, none, "In Use", 0, false, 5, 5⟩

/-- Witness for C10: the supplied empty-string status is replaced by the
default. -/
theorem c10_witness :
    isPresent inputFalsy.status = true ∧ truthy inputFalsy.status = false ∧
    createAsset 5 inputFalsy [] = .ok (rowA200, [rowA200]) ∧
    rowA200.status = "In Use" ∧ rowA200.cost = 0 ∧ rowA200.discovered = false := by
  have hok : createAsset 5 inputFalsy [] = .ok (rowA200, [] ++ [rowA200]) := by rfl
  have h := c10_falsy_inputs_get_defaults 5 inputFalsy [] rowA200 ([] ++ [rowA200]) hok
  exact ⟨by decide, by decide, hok, h.1 (by decide) (by decide),
    h.2.1 (by decide) (by decide), h.2.2 (by decide) (by decide)⟩

/-- The status parameter of the insert is never SQL `NULL`: either the
supplied value is truthy (hence not null/undefined) or the default
`In Use` is used. -/
theorem asText_status_isSome (v : Value) :
    (asText (if truthy v then v else Value.str "In Use")).isSome = true := by
  split
  · next h => cases v <;> simp [truthy] at h <;> simp [asText]
  · rfl

/-- Duplicate-tag payload against a store already holding tag `A-100`. -/
def inputDupTag : AssetInput :=
  ⟨Value.str "A-100", Value.str "laptop", Value.undef, Value.undef, Value.undef,
   Value.undef, Value.undef, Value.undef, Value.undef⟩

/-- Payload with the mandatory tag missing. -/
def inputNoTag : AssetInput :=
  ⟨Value.undef, Value.str "laptop", Value.undef, Value.undef, Value.undef,
   Value.undef, Value.undef, Value.undef, Value.undef⟩

/-- Claim C5 counterexample: a uniqueness violation and a validation failure
produce the same HTTP status 400 from the POST handler — the HTTP layer
exposes no dedicated conflict status distinguishing the two kinds. -/
theorem c5_counterexample :
    createAsset 9 inputDupTag [rowA100] = .error (.uniqueViolation "assets_asset_tag_key") ∧
    (postAssetHandler 9 inputDupTag [rowA100]).1.status = 400 ∧
    createAsset 9 inputNoTag [rowA100] = .error (.notNullViolation "asset_tag") ∧
    (postAssetHandler 9 inputNoTag [rowA100]).1.status = 400 :=
  ⟨rfl, rfl, rfl, rfl⟩

/-- Claim C5 amended: a duplicate-tag create fails with a unique-constraint
error naming the violated constraint — distinguishable in kind at the store
layer — but the POST handler maps it to the same generic 400 (with only the
free-text message as body) that it uses for every other create error, not to
a dedicated conflict status; the store is unchanged. -/
theorem c5_conflict_is_generic_400 (now : Nat) (a : AssetInput)
    (store : List AssetRow) (tag : String)
    (htag : asText a.asset_tag = some tag)
    (hty : (asText a.asset_type).isSome = true)
    (hcost : (asNumeric (if truthy a.cost then a.cost else Value.num 0)).isSome = true)
    (hdisc : (asBoolean (if truthy a.discovered then a.discovered else Value.bool false)).isSome = true)
    (hdup : store.any (fun r => r.asset_tag == tag) = true) :
    createAsset now a store = .error (.uniqueViolation "assets_asset_tag_key") ∧
    postAssetHandler now a store =
      (⟨400, .err (DbError.uniqueViolation "assets_asset_tag_key").message⟩, store) := by
  obtain ⟨ty, hty2⟩ := Option.isSome_iff_exists.mp hty
  obtain ⟨st, hst⟩ := Option.isSome_iff_exists.mp (asText_status_isSome a.status)
  obtain ⟨co, hco⟩ := Option.isSome_iff_exists.mp hcost
  obtain ⟨di, hdi⟩ := Option.isSome_iff_exists.mp hdisc
  have hc : createAsset now a store = .error (.uniqueViolation "assets_asset_tag_key") := by
    simp only [createAsset, htag, hty2, hst, hco, hdi]
    rw [hdup]
    rfl
  exact ⟨hc, by simp only [postAssetHandler, hc]⟩

/-- Witness for C5: creating a second asset with tag `A-100`. -/
theorem c5_witness :
    createAsset 9 ⟨Value.str "A-100", Value.str "server", Value.undef, Value.undef,
        Value.undef, Value.undef, Value.undef, Value.undef, Value.undef⟩ [rowA100] =
      .error (.uniqueViolation "assets_asset_tag_key") ∧
    postAssetHandler 9 ⟨Value.str "A-100", Value.str "server", Value.undef, Value.undef,
        Value.undef, Value.undef, Value.undef, Value.undef, Value.undef⟩ [rowA100] =
      (⟨400, .err (DbError.uniqueViolation "assets_asset_tag_key").message⟩, [rowA100]) :=
  c5_conflict_is_generic_400 9 _ [rowA100] "A-100" rfl (by decide) (by decide) (by decide)
    (by decide)

/-- Claim C6 counterexample: against an empty store (so no row has the id)
and the non-empty field bag with the single key `bogus_column`, `updateAsset`
raises an undefined-column error — the unknown key goes into the SQL and the
database rejects it — instead of returning an absent result, and the PUT
handler answers 400, not 404. -/
theorem c6_counterexample :
    updateAsset 3 "1" [("bogus_column", Value.str "x")] [] =
      (.error (.undefinedColumn "bogus_column"), []) ∧
    (putAssetHandler 3 "1" [("bogus_column", Value.str "x")] []).1.status = 400 :=
  ⟨rfl, rfl⟩

/-- Claim C6 amended: for a non-empty field bag whose keys are declared data
columns of the asset schema (with cast-compatible values), an update against
an id with no matching row returns an absent result — not an error — and the
PUT handler maps it to a 404 response with an error body, leaving the store
unchanged. -/
theorem c6_update_missing_id (now : Nat) (rawId : String)
    (bag : List (String × Value)) (store : List AssetRow) (i : Nat)
    (hne : filteredBag bag ≠ [])
    (hcols : ∀ kv ∈ filteredBag bag, kv.1 ∈ assetDataColumns)
    (hcast : ∀ kv ∈ filteredBag bag, castOk kv.1 kv.2 = true)
    (hid : parseId rawId = some i)
    (habsent : store.find? (fun r => r.id == i) = none) :
    updateAsset now rawId bag store = (.ok none, store) ∧
    putAssetHandler now rawId bag store = (⟨404, .err "Asset not found"⟩, store) := by
  have hsub : ∀ s ∈ assetDataColumns, s ∈ assetTableColumns := by decide
  have hnu : ∀ s ∈ assetDataColumns, (s == "updated_at") = false := by decide
  have hempty : (filteredBag bag).isEmpty = false := by
    cases hb : filteredBag bag with
    | nil => exact absurd hb hne
    | cons a t => rfl
  have hfind : (filteredBag bag).find? (fun kv => !(assetTableColumns.contains kv.1)) = none := by
    rw [List.find?_eq_none]
    intro kv hkv
    simp [hsub kv.1 (hcols kv hkv)]
  have hany : (filteredBag bag).any (fun kv => kv.1 == "updated_at") = false := by
    rw [List.any_eq_false]
    intro kv hkv
    simp [hnu kv.1 (hcols kv hkv)]
  have hall : (filteredBag bag).all (fun kv => castOk kv.1 kv.2) = true := by
    rw [List.all_eq_true]
    exact hcast
  have hu : updateAsset now rawId bag store = (.ok none, store) := by
    simp only [updateAsset, hempty, hfind, hany, hall, hid, habsent]
    rfl
  exact ⟨hu, by simp only [putAssetHandler, hu]⟩

/-- Witness for C6: updating `status` of an id that was never created. -/
theorem c6_witness :
    updateAsset 11 "5" [("status", Value.str "Retired")] [] = (.ok none, []) ∧
    putAssetHandler 11 "5" [("status", Value.str "Retired")] [] =
      (⟨404, .err "Asset not found"⟩, []) :=
  c6_update_missing_id 11 "5" [("status", Value.str "Retired")] [] 5
    (by decide) (by decide) (by decide) (by decide) rfl

/-- `CREATE TABLE IF NOT EXISTS` keeps every existing table. -/
theorem mem_createTable (t u : String) (c : Catalog) (h : u ∈ c.tables) :
    u ∈ (createTableIfNotExists t c).tables := by
  unfold createTableIfNotExists
  split
  · exact h
  · exact List.mem_append.mpr (Or.inl h)

/-- After `CREATE TABLE IF NOT EXISTS t`, table `t` exists. -/
theorem self_mem_createTable (t : String) (c : Catalog) :
    t ∈ (createTableIfNotExists t c).tables := by
  unfold createTableIfNotExists
  split
  · assumption
  · simp

/-- `CREATE TABLE IF NOT EXISTS` is the identity when the table exists. -/
theorem createTable_eq_of_mem (t : String) (c : Catalog) (h : t ∈ c.tables) :
    createTableIfNotExists t c = c := by
  unfold createTableIfNotExists
  rw [if_pos h]

/-- `CREATE INDEX IF NOT EXISTS` keeps every existing index. -/
theorem mem_createIndex (i j : String) (c : Catalog) (h : j ∈ c.indexes) :
    j ∈ (createIndexIfNotExists i c).indexes := by
  unfold createIndexIfNotExists
  split
  · exact h
  · exact List.mem_append.mpr (Or.inl h)

/-- After `CREATE INDEX IF NOT EXISTS i`, index `i` exists. -/
theorem self_mem_createIndex (i : String) (c : Catalog) :
    i ∈ (createIndexIfNotExists i c).indexes := by
  unfold createIndexIfNotExists
  split
  · assumption
  · simp

/-- `CREATE INDEX IF NOT EXISTS` is the identity when the index exists. -/
theorem createIndex_eq_of_mem (i : String) (c : Catalog) (h : i ∈ c.indexes) :
    createIndexIfNotExists i c = c := by
  unfold createIndexIfNotExists
  rw [if_pos h]

/-- Index creation never changes the set of tables. -/
theorem createIndex_tables (i : String) (c : Catalog) :
    (createIndexIfNotExists i c).tables = c.tables := by
  unfold createIndexIfNotExists
  split <;> rfl

/-- A run of table-creation statements keeps every existing table. -/
theorem tablesFold_preserves (ts : List String) (c : Catalog) (t : String)
    (h : t ∈ c.tables) :
    t ∈ (ts.foldl (fun c t => createTableIfNotExists t c) c).tables := by
  induction ts generalizing c with
  | nil => exact h
  | cons a ts ih => exact ih _ (mem_createTable a t c h)

/-- After a run of table-creation statements, every created table exists. -/
theorem tablesFold_mem (ts : List String) (c : Catalog) (t : String) (ht : t ∈ ts) :
    t ∈ (ts.foldl (fun c t => createTableIfNotExists t c) c).tables := by
  induction ts generalizing c with
  | nil => cases ht
  | cons a ts ih =>
    rw [List.mem_cons] at ht
    rcases ht with rfl | ht
    · exact tablesFold_preserves ts _ t (self_mem_createTable t c)
    · exact ih _ ht

/-- A run of table-creation statements on a catalog that already has all the
tables is the identity. -/
theorem tablesFold_id (ts : List String) (c : Catalog) (h : ∀ t ∈ ts, t ∈ c.tables) :
    ts.foldl (fun c t => createTableIfNotExists t c) c = c := by
  induction ts generalizing c with
  | nil => rfl
  | cons a ts ih =>
    rw [List.foldl_cons, createTable_eq_of_mem a c (h a (by simp))]
    exact ih c (fun t ht => h t (by simp [ht]))

/-- After a run of index-creation statements, every created index exists. -/
theorem indexesFold_mem (is : List String) (c : Catalog) (i : String) (hi : i ∈ is) :
    i ∈ (is.foldl (fun c i => createIndexIfNotExists i c) c).indexes := by
  induction is generalizing c with
  | nil => cases hi
  | cons a is ih =>
    rw [List.mem_cons] at hi
    rcases hi with rfl | hi
    · -- preserved through the rest of the fold
      have hp : ∀ (js : List String) (c2 : Catalog), i ∈ c2.indexes →
          i ∈ (js.foldl (fun c i => createIndexIfNotExists i c) c2).indexes := by
        intro js
        induction js with
        | nil => intro c2 h2; exact h2
        | cons b js ihj => intro c2 h2; exact ihj _ (mem_createIndex b i c2 h2)
      exact hp is _ (self_mem_createIndex i c)
    · exact ih _ hi

/-- A run of index-creation statements on a catalog that already has all the
indexes is the identity. -/
theorem indexesFold_id (is : List String) (c : Catalog) (h : ∀ i ∈ is, i ∈ c.indexes) :
    is.foldl (fun c i => createIndexIfNotExists i c) c = c := by
  induction is generalizing c with
  | nil => rfl
  | cons a is ih =>
    rw [List.foldl_cons, createIndex_eq_of_mem a c (h a (by simp))]
    exact ih c (fun i hi => h i (by simp [hi]))

/-- A run of index-creation statements never changes the set of tables. -/
theorem indexesFold_tables (is : List String) (c : Catalog) :
    (is.foldl (fun c i => createIndexIfNotExists i c) c).tables = c.tables := by
  induction is generalizing c with
  | nil => rfl
  | cons a is ih => rw [List.foldl_cons, ih, createIndex_tables]

/-- After the DDL part of `initDatabase`, all four tables exist. -/
theorem createSteps_tables_complete (c : Catalog) :
    ∀ t ∈ initTables, t ∈ (createSteps c).tables := by
  intro t ht
  unfold createSteps
  rw [indexesFold_tables]
  exact tablesFold_mem initTables c t ht

/-- After the DDL part of `initDatabase`, all eight indexes exist. -/
theorem createSteps_indexes_complete (c : Catalog) :
    ∀ i ∈ initIndexes, i ∈ (createSteps c).indexes := by
  intro i hi
  unfold createSteps
  exact indexesFold_mem initIndexes _ i hi

/-- The DDL part of `initDatabase` is the identity on a catalog that already
has all its tables and indexes. -/
theorem createSteps_eq_of_complete (c : Catalog)
    (ht : ∀ t ∈ initTables, t ∈ c.tables) (hi : ∀ i ∈ initIndexes, i ∈ c.indexes) :
    createSteps c = c := by
  unfold createSteps
  rw [tablesFold_id initTables c ht]
  exact indexesFold_id initIndexes c hi

/-- The DDL part of `initDatabase` is idempotent. -/
theorem createSteps_idem (c : Catalog) : createSteps (createSteps c) = createSteps c :=
  createSteps_eq_of_complete (createSteps c) (createSteps_tables_complete c)
    (createSteps_indexes_complete c)

/-- After the DDL part, the catalog verification succeeds. -/
theorem verify_createSteps (c : Catalog) : verifyTables (createSteps c) = .ok () := by
  have h := createSteps_tables_complete c
  have ha := decide_eq_true (h "assets" (by decide))
  have hl := decide_eq_true (h "licenses" (by decide))
  have hu := decide_eq_true (h "users" (by decide))
  have hk := decide_eq_true (h "contracts" (by decide))
  unfold verifyTables
  rw [ha, hl, hu, hk]
  rfl

/-- Claim C8: `initDatabase` is idempotent — from any catalog the first run
succeeds, producing the catalog extended by the missing tables and indexes,
and a second run returns the very same catalog with no error; and whenever
any of the four tables is absent when the verification step runs, it fails
with the interpolated initialization error. -/
theorem c8_init_idempotent (c : Catalog) :
    initDatabase c = .ok (createSteps c) ∧
    initDatabase (createSteps c) = .ok (createSteps c) ∧
    (∀ c2 : Catalog, (∃ t ∈ initTables, t ∉ c2.tables) →
      verifyTables c2 = .error (verifyMessage (decide ("assets" ∈ c2.tables))
        (decide ("licenses" ∈ c2.tables)) (decide ("users" ∈ c2.tables))
        (decide ("contracts" ∈ c2.tables)))) := by
  refine ⟨?_, ?_, ?_⟩
  · unfold initDatabase
    dsimp only
    rw [verify_createSteps]
  · unfold initDatabase
    dsimp only
    rw [createSteps_idem, verify_createSteps]
  · intro c2 hab
    obtain ⟨t, htmem, htabs⟩ := hab
    simp only [initTables, List.mem_cons, List.not_mem_nil, or_false] at htmem
    unfold verifyTables
    rcases htmem with rfl | rfl | rfl | rfl <;>
      rw [decide_eq_false htabs] <;> simp

/-- Witness for C8 starting from an empty catalog, including the failing
verification on the still-empty catalog. -/
theorem c8_witness :
    initDatabase (Catalog.mk [] []) = .ok (createSteps (Catalog.mk [] [])) ∧
    verifyTables (Catalog.mk [] []) =
      .error (verifyMessage false false false false) := by
  have h := c8_init_idempotent (Catalog.mk [] [])
  exact ⟨h.1, h.2.2 (Catalog.mk [] []) ⟨"assets", by decide, by decide⟩⟩

/-- The result of `likeMatchF` does not depend on the fuel, once the fuel
exceeds the pattern length. -/
theorem likeMatchF_fuel : ∀ (fuel fuel2 : Nat) (ps s : List Char),
    ps.length < fuel → ps.length < fuel2 →
    likeMatchF fuel ps s = likeMatchF fuel2 ps s := by
  intro fuel
  induction fuel with
  | zero => intro fuel2 ps s h _; omega
  | succ fuel ih =>
    intro fuel2 ps s h h2
    cases fuel2 with
    | zero => omega
    | succ fuel2 =>
      cases ps with
      | nil => rfl
      | cons p ps =>
        have hps : ps.length < fuel := by simp at h; omega
        have hps2 : ps.length < fuel2 := by simp at h2; omega
        simp only [likeMatchF]
        split
        · cases ps with
          | nil => rfl
          | cons e ps2 =>
            cases s with
            | nil => rfl
            | cons c s2 =>
              have he : ps2.length < fuel := by simp at hps; omega
              have he2 : ps2.length < fuel2 := by simp at hps2; omega
              dsimp only
              rw [ih fuel2 ps2 s2 he he2]
        · split
          · have hx : ∀ t, likeMatchF fuel ps t = likeMatchF fuel2 ps t :=
              fun t => ih fuel2 ps t hps hps2
            simp only [hx]
          · cases s with
            | nil => rfl
            | cons c s2 =>
              dsimp only
              split
              · exact ih fuel2 ps s2 hps hps2
              · rw [ih fuel2 ps s2 hps hps2]

/-- Unfolding `likeMatch` at a leading `%`. -/
theorem likeMatch_percent_eq (ps s : List Char) :
    likeMatch ('%' :: ps) s = s.tails.any (fun t => likeMatch ps t) := rfl

/-- Unfolding `likeMatch` at a leading plain character (neither a wildcard
nor the escape character). -/
theorem likeMatch_cons_plain (a : Char) (ps s : List Char)
    (h0 : (a == '\\') = false) (h1 : (a == '%') = false) (h2 : (a == '_') = false) :
    likeMatch (a :: ps) s =
      (match s with
       | [] => false
       | c :: s2 => a.toLower == c.toLower && likeMatch ps s2) := by
  unfold likeMatch
  simp only [likeMatchF, h0, h1, h2, Bool.false_eq_true, if_false, List.length_cons]

/-- A pattern consisting of a single `%` matches every string. -/
theorem likeMatch_percent (s : List Char) : likeMatch ['%'] s = true := by
  rw [likeMatch_percent_eq, List.any_eq_true]
  exact ⟨[], (List.mem_tails [] s).mpr List.nil_suffix, rfl⟩

/-- Matching `%` followed by a pattern: some suffix of the string matches
the rest of the pattern. -/
theorem likeMatch_percent_cons (ps s : List Char) :
    likeMatch ('%' :: ps) s = true ↔ ∃ t, t <:+ s ∧ likeMatch ps t = true := by
  rw [likeMatch_percent_eq, List.any_eq_true]
  constructor
  · rintro ⟨t, ht, hm⟩
    exact ⟨t, (List.mem_tails t s).mp ht, hm⟩
  · rintro ⟨t, ht, hm⟩
    exact ⟨t, (List.mem_tails t s).mpr ht, hm⟩

/-- Matching a wildcard-free pattern followed by `%`: the pattern must be a
case-insensitive prefix of the string. -/
theorem likeMatch_plain_percent :
    ∀ (p : List Char), (∀ c ∈ p, c ≠ '%' ∧ c ≠ '_' ∧ c ≠ '\\') →
      ∀ s : List Char, (likeMatch (p ++ ['%']) s = true ↔
        p.map Char.toLower <+: s.map Char.toLower) := by
  intro p
  induction p with
  | nil =>
    intro _ s
    simp [likeMatch_percent]
  | cons a p ih =>
    intro hp s
    have ha := hp a (by simp)
    have hrest : ∀ c ∈ p, c ≠ '%' ∧ c ≠ '_' ∧ c ≠ '\\' :=
      fun c hc => hp c (by simp [hc])
    have h0 : (a == '\\') = false := by simp [ha.2.2]
    have h1 : (a == '%') = false := by simp [ha.1]
    have h2 : (a == '_') = false := by simp [ha.2.1]
    cases s with
    | nil =>
      rw [List.cons_append, likeMatch_cons_plain a _ _ h0 h1 h2]
      simp
    | cons c s =>
      rw [List.cons_append, likeMatch_cons_plain a _ _ h0 h1 h2]
      simp only [Bool.and_eq_true, beq_iff_eq, List.map_cons, List.cons_prefix_cons,
        ih hrest s]

/-- Every suffix of a mapped list is the image of a suffix. -/
theorem suffix_map_exists (f : Char → Char) :
    ∀ (s t : List Char), t <:+ s.map f → ∃ u, u <:+ s ∧ u.map f = t := by
  intro s
  induction s with
  | nil =>
    intro t ht
    rw [List.map_nil, List.suffix_nil] at ht
    exact ⟨[], by simp, by simp [ht]⟩
  | cons a s ih =>
    intro t ht
    rw [List.map_cons, List.suffix_cons_iff] at ht
    rcases ht with rfl | ht
    · exact ⟨a :: s, List.suffix_refl _, by simp⟩
    · obtain ⟨u, hu, hum⟩ := ih t ht
      exact ⟨u, hu.trans ( List.suffix_cons a s), hum⟩

/-- For wildcard-free queries, matching the `%query%` pattern is exactly
case-insensitive substring occurrence. -/
theorem likeMatch_pattern_iff (q s : List Char)
    (hq : ∀ c ∈ q, c ≠ '%' ∧ c ≠ '_' ∧ c ≠ '\\') :
    likeMatch ('%' :: (q ++ ['%'])) s = true ↔
      q.map Char.toLower <:+: s.map Char.toLower := by
  rw [likeMatch_percent_cons]
  constructor
  · rintro ⟨t, hts, hm⟩
    have hp := (likeMatch_plain_percent q hq t).mp hm
    exact List.infix_iff_prefix_suffix.mpr
      ⟨t.map Char.toLower, hp, List.IsSuffix.map _ hts⟩
  · intro h
    obtain ⟨t2, hpre, hsuf⟩ := List.infix_iff_prefix_suffix.mp h
    obtain ⟨u, hu, hum⟩ := suffix_map_exists Char.toLower s t2 hsuf
    refine ⟨u, hu, (likeMatch_plain_percent q hq u).mpr ?_⟩
    rw [hum]
    exact hpre

/-- The character list of the `%query%` search term. -/
theorem toList_searchPattern (q : String) :
    (searchPattern q).toList = '%' :: (q.toList ++ ['%']) := by
  simp [searchPattern, String.toList]

/-- `ILIKE '%query%'` on a non-null column is case-insensitive substring
matching, for wildcard-free queries. -/
theorem ilike_iff (q s : String) (hq : wildcardFree q) :
    ilike s (searchPattern q) = true ↔ SubstrCI q s := by
  unfold ilike SubstrCI
  rw [toList_searchPattern]
  exact likeMatch_pattern_iff q.toList s.toList hq

/-- `ILIKE '%query%'` on a nullable column: null never matches; otherwise
substring matching. -/
theorem ilikeOpt_iff (q : String) (s : Option String) (hq : wildcardFree q) :
    ilikeOpt s (searchPattern q) = true ↔ SubstrCIOpt q s := by
  cases s with
  | none => simp [ilikeOpt, SubstrCIOpt]
  | some s => simpa [ilikeOpt, SubstrCIOpt] using ilike_iff q s hq

/-- The search predicate of `searchAssets`, for wildcard-free queries: the
query occurs as a case-insensitive substring of one of the four columns. -/
theorem rowMatches_iff (q : String) (r : AssetRow) (hq : wildcardFree q) :
    rowMatches q r = true ↔
      SubstrCI q r.asset_tag ∨ SubstrCIOpt q r.manufacturer ∨
        SubstrCIOpt q r.model ∨ SubstrCIOpt q r.assigned_user_name := by
  unfold rowMatches
  rw [Bool.or_eq_true, Bool.or_eq_true, Bool.or_eq_true,
    ilike_iff q _ hq, ilikeOpt_iff q _ hq, ilikeOpt_iff q _ hq, ilikeOpt_iff q _ hq]
  tauto

/-- The `ORDER BY created_at DESC` comparison is transitive. -/
theorem createdDesc_trans (a b c : AssetRow) (hab : createdDesc a b = true)
    (hbc : createdDesc b c = true) : createdDesc a c = true := by
  simp only [createdDesc, decide_eq_true_eq] at hab hbc ⊢
  omega

/-- The `ORDER BY created_at DESC` comparison is total. -/
theorem createdDesc_total (a b : AssetRow) :
    (createdDesc a b || createdDesc b a) = true := by
  simp only [createdDesc, Bool.or_eq_true, decide_eq_true_eq]
  omega

/-- A row with manufacturer `Dell` and no `_` in any searchable column. -/
def rowDell : AssetRow :=
  ⟨21, "TAGX", "hardware", some "Dell", none, none, none, "In Use", 0, false, 6, 6⟩

/-- Claim C4 counterexample: the query `_` is returned as matching the row
although it is not a substring of any of the four searched columns — the
unescaped query is used as a SQL LIKE pattern, where `_` matches any single
character. -/
theorem c4_counterexample :
    rowDell ∈ searchAssets "_" [rowDell] ∧
      ¬ SubstrCI "_" rowDell.asset_tag ∧ ¬ SubstrCIOpt "_" rowDell.manufacturer ∧
      ¬ SubstrCIOpt "_" rowDell.model ∧ ¬ SubstrCIOpt "_" rowDell.assigned_user_name := by
  refine ⟨?_, by decide, by decide, by decide, by decide⟩
  unfold searchAssets sortByCreatedDesc
  rw [List.mem_filter, (List.mergeSort_perm [rowDell] createdDesc).mem_iff]
  exact ⟨by simp, by decide⟩

/-- Claim C4 amended: for every query free of the SQL wildcards `%` and `_`
and of the default LIKE escape character `\\`, `searchAssets` returns
exactly the stored rows in which the query occurs as a case-insensitive
substring of the tag, manufacturer, model or assigned user name, and the
result is ordered by creation time descending. -/
theorem c4_search_characterisation (q : String) (store : List AssetRow)
    (hq : wildcardFree q) :
    (∀ r : AssetRow, r ∈ searchAssets q store ↔
        r ∈ store ∧ (SubstrCI q r.asset_tag ∨ SubstrCIOpt q r.manufacturer ∨
          SubstrCIOpt q r.model ∨ SubstrCIOpt q r.assigned_user_name)) ∧
    List.Pairwise (fun a b : AssetRow => b.created_at ≤ a.created_at)
      (searchAssets q store) := by
  constructor
  · intro r
    unfold searchAssets sortByCreatedDesc
    rw [List.mem_filter, (List.mergeSort_perm store createdDesc).mem_iff,
      rowMatches_iff q r hq]
  · unfold searchAssets sortByCreatedDesc
    exact ((List.sorted_mergeSort createdDesc_trans createdDesc_total store).imp
      (fun h => of_decide_eq_true h)).filter _

/-- The row of the spec's search example. -/
def rowDellInc : AssetRow :=
  ⟨22, "TAGY", "hardware", some "Dell Inc", none, none, none, "In Use", 0, false, 6, 6⟩

/-- Witness for C4 at the spec's example: searching `dell` matches the row
with manufacturer `Dell Inc`. -/
theorem c4_witness :
    rowDellInc ∈ searchAssets "dell" [rowDellInc] ∧
      List.Pairwise (fun a b : AssetRow => b.created_at ≤ a.created_at)
        (searchAssets "dell" [rowDellInc]) := by
  have h := c4_search_characterisation "dell" [rowDellInc] (by decide)
  exact ⟨(h.1 rowDellInc).mpr ⟨by simp, Or.inr (Or.inl (by decide))⟩, h.2⟩
